import Mathlib

/-!
Verification of the Minion turn-based board game.

Shallow embedding of the game-state logic of the repository:
  * `src/src/utils/constants.py` — grid dimensions and cell codes;
  * `src/src/utils/game_state.py` — `GameState` (the multi-agent variant:
    movement clamping, item collection, win/draw evaluation, bumped-minion
    relocation, turn advance);
  * `src/src/game.py` — `Game` (the one-minion-per-team variant: its own
    movement, item collection, win evaluation and end-of-turn bookkeeping);
  * `src/src/ai/ai_service.py` and `src/src/minion/ai_controller.py` — the
    decision-provider wrappers and their fallback behavior.

Python integers are modelled as `Int`, Python lists as Lean lists, a grid
as a list of rows (`List (List Int)`), and a `[y, x]` position as `Int × Int`.
Randomness (`random.shuffle`, `random.choice`) is modelled by an explicit
parameter (a permutation of the shuffled list, resp. an index into the choice
list). The mutable `None | 0 | 1 | 2` winner field is `Option Int`
(`none` = Python `None`, `some 0` = draw).
-/

namespace Minion

/-! Constants from `src/src/utils/constants.py`. -/

def EMPTY : Int := 0

def SUSHI : Int := 1

def DONUT : Int := 2

def BANANA : Int := 3

def GRID_WIDTH : Int := 10

def GRID_HEIGHT : Int := 8

def MAX_TURNS : Nat := 50

/-- Grid dimensions set in `Game.__init__` (`src/src/game.py` lines 30–31);
note they differ from `constants.py`: `self.GRID_WIDTH = 8`,
`self.GRID_HEIGHT = 10`. -/
def Game.GRID_WIDTH : Int := 8

def Game.GRID_HEIGHT : Int := 10

/-- Read `grid[y][x]` of a row-major grid (numpy array in the source). -/
def gridCell (grid : List (List Int)) (y x : Int) : Int :=
  (grid.getD y.toNat []).getD x.toNat 0

/-- Write `grid[y][x] = v`. -/
def setCell (grid : List (List Int)) (y x : Int) (v : Int) : List (List Int) :=
  grid.set y.toNat ((grid.getD y.toNat []).set x.toNat v)

/-- A position lies within the `gridHeight × gridWidth` board:
`0 ≤ row < gridHeight` and `0 ≤ col < gridWidth`. -/
def inBounds (gridHeight gridWidth : Int) (p : Int × Int) : Prop :=
  0 ≤ p.1 ∧ p.1 < gridHeight ∧ 0 ≤ p.2 ∧ p.2 < gridWidth

instance (H W : Int) (p : Int × Int) : Decidable (inBounds H W p) := by
  unfold inBounds; infer_instance

/-- `calculate_new_position` as written (identically) in
`GameState.calculate_new_position` (`src/src/utils/game_state.py` lines 77–89,
with `GRID_HEIGHT = 8`, `GRID_WIDTH = 10` from `constants.py`) and in
`Game.calculate_new_position` (`src/src/game.py` lines 523–535, with the
`Game` instance attributes `GRID_HEIGHT = 10`, `GRID_WIDTH = 8`).  The two
grid dimensions are the only difference, so they are parameters here.
The Python body copies the input list and conditionally steps one cell;
an unrecognized direction (including `"stay"`) leaves the position as is. -/
def calculate_new_position (gridHeight gridWidth : Int)
    (position : Int × Int) (direction : String) : Int × Int :=
  if direction = "up" ∧ 0 < position.1 then (position.1 - 1, position.2)
  else if direction = "down" ∧ position.1 < gridHeight - 1 then
    (position.1 + 1, position.2)
  else if direction = "left" ∧ 0 < position.2 then (position.1, position.2 - 1)
  else if direction = "right" ∧ position.2 < gridWidth - 1 then
    (position.1, position.2 + 1)
  else position

/-- `GameState.calculate_new_position`: the `game_state.py` instantiation. -/
def GameState.calculate_new_position (position : Int × Int)
    (direction : String) : Int × Int :=
  Minion.calculate_new_position GRID_HEIGHT GRID_WIDTH position direction

/-- `Game.move_minion` (`src/src/game.py` lines 537–562): clears the old
marker cell, recomputes the position with the same clamped arithmetic,
and writes the current team marker (4 or 1 ↦ 4, else 5) at the new cell.
Returns the updated grid and the updated `minion_pos`. -/
def Game.move_minion (grid : List (List Int)) (minion_pos : Int × Int)
    (direction : String) (current_team : Nat) : List (List Int) × (Int × Int) :=
  let grid := setCell grid minion_pos.1 minion_pos.2 0
  let new_pos :=
    if direction = "up" ∧ 0 < minion_pos.1 then (minion_pos.1 - 1, minion_pos.2)
    else if direction = "down" ∧ minion_pos.1 < Game.GRID_HEIGHT - 1 then
      (minion_pos.1 + 1, minion_pos.2)
    else if direction = "left" ∧ 0 < minion_pos.2 then
      (minion_pos.1, minion_pos.2 - 1)
    else if direction = "right" ∧ minion_pos.2 < Game.GRID_WIDTH - 1 then
      (minion_pos.1, minion_pos.2 + 1)
    else minion_pos
  let minion_code : Int := if current_team = 1 then 4 else 5
  (setCell grid new_pos.1 new_pos.2 minion_code, new_pos)

/-- The unit step a direction denotes (row delta, column delta); `"stay"`
and any unknown direction denote no movement.  Statement-side helper used to
phrase "the orthogonally adjacent cell in that direction". -/
def delta (direction : String) : Int × Int :=
  if direction = "up" then (-1, 0)
  else if direction = "down" then (1, 0)
  else if direction = "left" then (0, -1)
  else if direction = "right" then (0, 1)
  else (0, 0)

/-! The `GameState` class of `src/src/utils/game_state.py` (the four-minion
variant).  Fields mirror the attributes set in `reset`. -/

structure GameState where
  grid : List (List Int)
  TEAM1_1_SPAWN_POS : Int × Int
  TEAM1_2_SPAWN_POS : Int × Int
  TEAM2_1_SPAWN_POS : Int × Int
  TEAM2_2_SPAWN_POS : Int × Int
  team1_minion_1_pos : Int × Int
  team1_minion_2_pos : Int × Int
  team2_minion_1_pos : Int × Int
  team2_minion_2_pos : Int × Int
  team1_targets : List Int
  team2_targets : List Int
  team1_collected : List Int
  team2_collected : List Int
  current_team : Int
  turn_count : Nat
  max_turns : Nat
  game_over : Bool
  winner : Option Int
deriving DecidableEq

/-- The per-team match counter computed by the loops in
`GameState.check_win_conditions` (`src/src/utils/game_state.py` lines
108–116 and 123–131): one iteration per element of `targets`, counting the
occurrences whose kind is collected at least as often as it is required. -/
def matchesCount (targets collected : List Int) : Nat :=
  targets.countP (fun item => decide (targets.count item ≤ collected.count item))

/-- `GameState.check_win_conditions` (`src/src/utils/game_state.py` lines
105–141): team 1 check, then team 2 check (which can overwrite the winner),
then the max-turns draw check guarded by `winner is None`.  The two team
checks update only `game_over`/`winner`, so the target/collected/turn fields
they and the draw check read are taken from `s` unchanged; the draw guard
reads the possibly-updated `winner` of `s2`. -/
def GameState.check_win_conditions (s : GameState) : GameState :=
  let s1 :=
    if 5 ≤ matchesCount s.team1_targets s.team1_collected then
      { s with game_over := true, winner := some 1 }
    else s
  let s2 :=
    if 5 ≤ matchesCount s.team2_targets s.team2_collected then
      { s1 with game_over := true, winner := some 2 }
    else s1
  if s.max_turns ≤ s.turn_count then
    if s2.winner = none then { s2 with game_over := true, winner := some 0 }
    else { s2 with game_over := true }
  else s2

/-- `GameState.next_turn` (`src/src/utils/game_state.py` lines 184–191):
switch teams, increment the turn counter, then run the win check. -/
def GameState.next_turn (s : GameState) : GameState :=
  GameState.check_win_conditions
    { s with
      current_team := if s.current_team = 1 then 2 else 1,
      turn_count := s.turn_count + 1 }

/-! The `Game` class of `src/src/game.py` (the one-minion-per-team variant):
only the win/turn bookkeeping fields, which are the ones its
`check_win_conditions` and the tail of `take_turn` read and write. -/

structure GState where
  team1_targets : List Int
  team2_targets : List Int
  team1_collected : List Int
  team2_collected : List Int
  current_team : Int
  turn_count : Nat
  max_turns : Nat
  game_over : Bool
  winner : Option Int
deriving DecidableEq

/-- The per-team match counter computed by the loops in
`Game.check_win_conditions` (`src/src/game.py` lines 576–589): one iteration
per element of `targets`, counting the occurrences whose kind appears in
`collected` at all (`collected.count(item) > 0`). -/
def presenceCount (targets collected : List Int) : Nat :=
  targets.countP (fun item => decide (0 < collected.count item))

/-- `Game.check_win_conditions` (`src/src/game.py` lines 573–593): team 1
check then team 2 check, each requiring only that every target kind appear
at least once in the collected list; no draw logic here. -/
def Game.check_win_conditions (s : GState) : GState :=
  let s1 :=
    if 5 ≤ presenceCount s.team1_targets s.team1_collected then
      { s with game_over := true, winner := some 1 }
    else s
  if 5 ≤ presenceCount s.team2_targets s.team2_collected then
    { s1 with game_over := true, winner := some 2 }
  else s1

/-- The end-of-move bookkeeping tail of `Game.take_turn`
(`src/src/game.py` lines 511–521): win check, team switch, turn increment,
then — with no `winner is None` guard — the draw overwrite at max turns. -/
def Game.take_turn_end (s : GState) : GState :=
  let s1 := Game.check_win_conditions s
  let s2 :=
    { s1 with
      current_team := if s1.current_team = 1 then 2 else 1,
      turn_count := s1.turn_count + 1 }
  if s2.max_turns ≤ s2.turn_count then { s2 with game_over := true, winner := some 0 }
  else s2

/-- The `Game` bookkeeping state together with the `dialogue_timer` field,
which the tail of `take_turn` also writes (`src/src/game.py` line 509). -/
structure GStateT where
  core : GState
  dialogue_timer : Nat
deriving DecidableEq

/-- The complete end-of-move tail of `Game.take_turn`
(`src/src/game.py` lines 508–521): `self.dialogue_timer =
pygame.time.get_ticks()` (the external clock read is the `ticks` parameter),
then the win check, team switch, turn increment and unguarded draw
assignment of `Game.take_turn_end`. -/
def Game.take_turn_tail (s : GStateT) (ticks : Nat) : GStateT :=
  { core := Game.take_turn_end s.core, dialogue_timer := ticks }

/-! Item collection. -/

/-- `GameState.check_item_collection` (`src/src/utils/game_state.py` lines
91–103): read `grid[y][x]`; if it is an item code (1–3), append it to the
collected list, clear the cell to 0, and return `(True, item)`; otherwise
return `(False, None)`.  The Python method mutates `self.grid` and the
`collected_items` argument; here both are threaded explicitly:
result = (grid, collected_items, returned flag, returned item). -/
def GameState.check_item_collection (grid : List (List Int))
    (minion_pos : Int × Int) (collected_items : List Int) :
    List (List Int) × List Int × Bool × Option Int :=
  let item := gridCell grid minion_pos.1 minion_pos.2
  if 1 ≤ item ∧ item ≤ 3 then
    (setCell grid minion_pos.1 minion_pos.2 0, collected_items ++ [item],
      true, some item)
  else
    (grid, collected_items, false, none)

/-- `Game.check_item_collection` (`src/src/game.py` lines 564–571): read
`grid[y][x]`; if it is an item code (1–3), append it to the collected list.
The Python method never writes the grid and returns `None`; the grid is
threaded through unchanged to make that visible (the `target_items`
parameter is unused in the source). -/
def Game.check_item_collection (grid : List (List Int))
    (minion_pos : Int × Int) (collected_items : List Int)
    (target_items : List Int) : List (List Int) × List Int :=
  let item := gridCell grid minion_pos.1 minion_pos.2
  if 1 ≤ item ∧ item ≤ 3 then (grid, collected_items ++ [item])
  else (grid, collected_items)

def findPredB (grid : List (List Int)) (occ : List (Int × Int))
    (base d : Int × Int) : Bool :=
  decide (0 ≤ base.1 + d.1) && decide (base.1 + d.1 < GRID_HEIGHT) &&
  decide (0 ≤ base.2 + d.2) && decide (base.2 + d.2 < GRID_WIDTH) &&
  (gridCell grid (base.1 + d.1) (base.2 + d.2) == EMPTY) &&
  !(occ.any (fun occ_pos => occ_pos == (base.1 + d.1, base.2 + d.2)))

/-! Bumped-minion relocation. -/

/-- `GameState.find_available_spawn_or_adjacent`
(`src/src/utils/game_state.py` lines 143–182).  `random.shuffle(adj_diffs)`
is modelled by taking the shuffled list as the `adj_diffs` parameter (a
permutation of `[(0,1), (0,-1), (1,0), (-1,0)]`, i.e. right, left, down, up).
The loop returns the first shuffled neighbor — tested by `findPredB`, the
loop-body condition — that is inside the board, has an `EMPTY` grid cell,
and is not claimed this turn; if the spawn point is not claimed the loop is
never entered, and if the loop finds nothing the spawn point is returned as
a last resort. -/
def GameState.find_available_spawn_or_adjacent (base_spawn_pos : Int × Int)
    (grid : List (List Int)) (occupied_by_others_this_turn : List (Int × Int))
    (adj_diffs : List (Int × Int)) : Int × Int :=
  if occupied_by_others_this_turn.any (fun occ_pos => occ_pos == base_spawn_pos) then
    match adj_diffs.find?
        (findPredB grid occupied_by_others_this_turn base_spawn_pos) with
    | some d => (base_spawn_pos.1 + d.1, base_spawn_pos.2 + d.2)
    | none => base_spawn_pos
  else base_spawn_pos

/-- A neighbor offset `d` of `base` is acceptable for relocation: the cell is
on the board, empty in the grid, and not claimed this turn. -/
def goodAdj (grid : List (List Int)) (occ : List (Int × Int))
    (base d : Int × Int) : Prop :=
  inBounds GRID_HEIGHT GRID_WIDTH (base.1 + d.1, base.2 + d.2) ∧
  gridCell grid (base.1 + d.1) (base.2 + d.2) = EMPTY ∧
  (base.1 + d.1, base.2 + d.2) ∉ occ

instance (grid : List (List Int)) (occ : List (Int × Int)) (base d : Int × Int) :
    Decidable (goodAdj grid occ base d) := by
  unfold goodAdj; infer_instance

/-! Decision-provider wrappers and their fallbacks. -/

/-- The `{move, dialogue, thought, strategy}` dictionary returned by
`AIService.get_minion_action` (`strategy` is absent from the fallback
dictionaries, hence optional). -/
structure MinionResponse where
  move : String
  dialogue : String
  thought : String
  strategy : Option String
deriving DecidableEq

/-- The possible outcomes of the OpenAI call inside
`AIService.get_minion_action` (`src/src/ai/ai_service.py`): no client
configured; the API call raising an exception; a response without tool
calls; or a parsed tool call whose four fields may each be missing. -/
inductive ProviderOutcome where
  | noClient
  | apiError
  | noToolCalls
  | toolCall (next_move dialogue thought strategy : Option String)
deriving DecidableEq

/-- Whether the provider call errored or yielded no usable tool-call result
(the three fallback paths of `get_minion_action`). -/
def ProviderOutcome.failed : ProviderOutcome → Bool
  | .noClient => true
  | .apiError => true
  | .noToolCalls => true
  | .toolCall _ _ _ _ => false

/-- `AIService.get_minion_action` (`src/src/ai/ai_service.py` lines 37–135)
as a function of the provider outcome: each of the three failure paths
returns its fixed dictionary with `move = "stay"`; a tool call returns the
parsed fields with `result.get(...)` defaults. -/
def AIService.get_minion_action : ProviderOutcome → MinionResponse
  | .noClient =>
      { move := "stay"
        dialogue := "I need my guide\x27s API key to think properly!"
        thought := "My connection to the hive mind seems... broken?"
        strategy := none }
  | .toolCall next_move dialogue thought strategy =>
      { move := next_move.getD "stay"
        dialogue := dialogue.getD "..."
        thought := thought.getD "..."
        strategy := some (strategy.getD "No strategy available") }
  | .noToolCalls =>
      { move := "stay"
        dialogue := "I\x27m not sure what to do."
        thought := "The signal is confusing me..."
        strategy := none }
  | .apiError =>
      { move := "stay"
        dialogue := "Hmm, I need to think..."
        thought := "My guide\x27s instructions are unclear."
        strategy := none }

/-- The possible outcomes of the chat-completions request inside
`AIController.get_movement_direction` (`src/src/minion/ai_controller.py`):
a parsed function-call direction, a response without a usable function call,
or a raised exception. -/
inductive ChatOutcome where
  | ok (direction : String)
  | noFunctionCall
  | requestError
deriving DecidableEq

/-- Whether the chat request failed to produce a usable direction. -/
def ChatOutcome.failed : ChatOutcome → Bool
  | .ok _ => false
  | .noFunctionCall => true
  | .requestError => true

/-- `AIController.get_movement_direction` (`src/src/minion/ai_controller.py`
lines 16–77) as a function of the request outcome; the
`random.choice(["up", "down", "left", "right"])` fallback is modelled by an
arbitrary index `pick` into that list. -/
def AIController.get_movement_direction : ChatOutcome → Nat → String
  | .ok direction, _ => direction
  | .noFunctionCall, pick => ["up", "down", "left", "right"].getD (pick % 4) "up"
  | .requestError, pick => ["up", "down", "left", "right"].getD (pick % 4) "up"

/-! Collision arbitration.  Modelled from the spec: the repository source
contains no cell-collision arbitration code — only the per-minion `power`
constants are declared (`src/src/utils/constants.py` lines 88–91); the
shuffle/stable-sort arbitration is described only by the spec (TurnResolver
step 3). -/

/-- Modelled from the spec: an agent as the arbitration step sees it — an
identity and its immutable, comparable `power` (the sole arbitration key). -/
structure Agent where
  id : Nat
  power : Nat
deriving DecidableEq

/-- Modelled from the spec: stable insertion into a descending-by-`power`
list — an element is placed before the first strictly weaker one, keeping
already-placed equal-power elements ahead of later-inserted ones. -/
def insertByPowerDesc (a : Agent) : List Agent → List Agent
  | [] => [a]
  | b :: rest =>
      if b.power ≤ a.power then a :: b :: rest
      else b :: insertByPowerDesc a rest

/-- Modelled from the spec: stable sort of the claimant list, descending by
`power`. -/
def sortByPowerDesc : List Agent → List Agent
  | [] => []
  | a :: rest => insertByPowerDesc a (sortByPowerDesc rest)

/-- Modelled from the spec (TurnResolver step 3): for a cell claimed by
several agents, randomly shuffle the claimants then stable-sort them
descending by `power`; the first keeps the cell, the others are bumped.
The shuffle is modelled by the `shuffled` parameter, an arbitrary
permutation of the claimant list. -/
def resolve_collision (shuffled : List Agent) : Option Agent × List Agent :=
  match sortByPowerDesc shuffled with
  | [] => (none, [])
  | w :: rest => (some w, rest)

/-! A small heap model for the aliasing behavior of the two position-query
methods: Python `[y, x]` position lists live in a store of mutable cells
addressed by `Nat`, so that `position.copy()` / `base_spawn_pos[:]` (fresh
allocations) are distinguishable from in-place mutation of an argument. -/

abbrev Store := List (List Int)

/-- Dereference a position-list address. -/
def hread (σ : Store) (a : Nat) : List Int := σ.getD a []

/-- Overwrite the cell at an address (in-place list mutation). -/
def hwrite (σ : Store) (a : Nat) (v : List Int) : Store := σ.set a v

/-- Allocate a fresh list cell, returning the new store and its address. -/
def halloc (σ : Store) (v : List Int) : Store × Nat := (σ ++ [v], σ.length)

/-- `GameState.calculate_new_position` on the heap: `new_pos =
position.copy()` allocates a fresh list; the conditional `new_pos[0] -= 1`
etc. mutate only that fresh cell, reading the bound checks from the
`position` argument. -/
def GameState.calculate_new_position_heap (σ : Store) (position : Nat)
    (direction : String) : Store × Nat :=
  let al := halloc σ (hread σ position)
  let σ1 := al.1
  let new_pos := al.2
  let σ2 :=
    if direction = "up" ∧ 0 < (hread σ1 position).getD 0 0 then
      hwrite σ1 new_pos
        ((hread σ1 new_pos).set 0 ((hread σ1 new_pos).getD 0 0 - 1))
    else if direction = "down" ∧
        (hread σ1 position).getD 0 0 < GRID_HEIGHT - 1 then
      hwrite σ1 new_pos
        ((hread σ1 new_pos).set 0 ((hread σ1 new_pos).getD 0 0 + 1))
    else if direction = "left" ∧ 0 < (hread σ1 position).getD 1 0 then
      hwrite σ1 new_pos
        ((hread σ1 new_pos).set 1 ((hread σ1 new_pos).getD 1 0 - 1))
    else if direction = "right" ∧
        (hread σ1 position).getD 1 0 < GRID_WIDTH - 1 then
      hwrite σ1 new_pos
        ((hread σ1 new_pos).set 1 ((hread σ1 new_pos).getD 1 0 + 1))
    else σ1
  (σ2, new_pos)

/-- `GameState.find_available_spawn_or_adjacent` on the heap: the spawn
position and the claimed positions are read through their addresses, the
grid is only read (and threaded through unchanged), and the returned list —
`base_spawn_pos[:]` on both spawn-returning paths, the freshly built
`adj_pos` otherwise — is a fresh allocation. -/
def GameState.find_available_spawn_or_adjacent_heap (σ : Store)
    (grid : List (List Int)) (base_spawn_pos : Nat) (occupied : List Nat)
    (adj_diffs : List (Int × Int)) : Store × List (List Int) × Nat :=
  let basev := hread σ base_spawn_pos
  let bp : Int × Int := (basev.getD 0 0, basev.getD 1 0)
  let occ_vals := occupied.map
    (fun a => ((hread σ a).getD 0 0, (hread σ a).getD 1 0))
  if occ_vals.any (fun p => p == bp) then
    match adj_diffs.find? (findPredB grid occ_vals bp) with
    | some d =>
        let al := halloc σ [bp.1 + d.1, bp.2 + d.2]
        (al.1, grid, al.2)
    | none =>
        let al := halloc σ basev
        (al.1, grid, al.2)
  else
    let al := halloc σ basev
    (al.1, grid, al.2)

/-- C2: for every position inside the `gridHeight × gridWidth` board and every
direction among up/down/left/right/stay, `calculate_new_position` returns the
orthogonally adjacent cell in that direction when it is in bounds and the
unchanged starting position otherwise (an edge move is a no-op, like stay);
in either case the result is in bounds.  Moreover `Game.move_minion` moves the
minion to exactly `calculate_new_position` of its position (with the grid
dimensions that `game.py` itself sets). -/
theorem calculate_new_position_spec (gridHeight gridWidth : Int)
    (p : Int × Int) (d : String) (grid : List (List Int)) (team : Nat)
    (hp : inBounds gridHeight gridWidth p)
    (hd : d ∈ ["up", "down", "left", "right", "stay"]) :
    (inBounds gridHeight gridWidth (p.1 + (delta d).1, p.2 + (delta d).2) →
      calculate_new_position gridHeight gridWidth p d =
        (p.1 + (delta d).1, p.2 + (delta d).2)) ∧
    (¬ inBounds gridHeight gridWidth (p.1 + (delta d).1, p.2 + (delta d).2) →
      calculate_new_position gridHeight gridWidth p d = p) ∧
    inBounds gridHeight gridWidth (calculate_new_position gridHeight gridWidth p d) ∧
    (Game.move_minion grid p d team).2 =
      calculate_new_position Game.GRID_HEIGHT Game.GRID_WIDTH p d := by
  obtain ⟨h1, h2, h3, h4⟩ := hp
  simp only [List.mem_cons, List.not_mem_nil, or_false] at hd
  rcases hd with rfl | rfl | rfl | rfl | rfl <;>
    refine ⟨fun ht => ?_, fun ht => ?_, ?_, rfl⟩ <;>
    simp [calculate_new_position, delta, inBounds] at * <;>
    (try split_ifs) <;>
    (try simp [Prod.ext_iff]) <;>
    omega

/-- C2 witness: at position (0, 0) on the 8 × 10 board, a move up is clamped
to a no-op and the result stays in bounds. -/
theorem calculate_new_position_spec_witness :
    (inBounds GRID_HEIGHT GRID_WIDTH
        ((0 : Int) + (delta "up").1, (0 : Int) + (delta "up").2) →
      calculate_new_position GRID_HEIGHT GRID_WIDTH (0, 0) "up" =
        ((0 : Int) + (delta "up").1, (0 : Int) + (delta "up").2)) ∧
    (¬ inBounds GRID_HEIGHT GRID_WIDTH
        ((0 : Int) + (delta "up").1, (0 : Int) + (delta "up").2) →
      calculate_new_position GRID_HEIGHT GRID_WIDTH (0, 0) "up" = (0, 0)) ∧
    inBounds GRID_HEIGHT GRID_WIDTH
      (calculate_new_position GRID_HEIGHT GRID_WIDTH (0, 0) "up") ∧
    (Game.move_minion [[4]] ((0 : Int), (0 : Int)) "up" 1).2 =
      calculate_new_position Game.GRID_HEIGHT Game.GRID_WIDTH (0, 0) "up" :=
  calculate_new_position_spec GRID_HEIGHT GRID_WIDTH (0, 0) "up" [[4]] 1
    (by decide) (by decide)

/-- A `countP` over a whole list reaches the length of that list exactly when every
element satisfies the predicate. -/
lemma length_le_countP_iff (l : List Int) (p : Int → Bool) :
    l.length ≤ l.countP p ↔ ∀ a ∈ l, p a := by
  constructor
  · intro hle
    exact List.countP_eq_length.mp (le_antisymm (List.countP_le_length p) hle)
  · intro hall
    exact le_of_eq (List.countP_eq_length.mpr hall).symm

/-- C1 counterexample: with `Game.check_win_conditions` (`src/src/game.py`),
team 1 is declared the winner with targets `[1,1,1,1,1]` (five sushi) and a
pooled collected list `[1]` (one sushi), although the collected count `1` is
strictly below the required count `5` — refuting the claimed
"wins only if count ≥ required" direction for that cited implementation. -/
theorem check_win_presence_counterexample :
    (Game.check_win_conditions
      { team1_targets := [1, 1, 1, 1, 1], team2_targets := [1, 1, 1, 1, 1],
        team1_collected := [1], team2_collected := [],
        current_team := 1, turn_count := 0, max_turns := 50,
        game_over := false, winner := none }).game_over = true ∧
    (Game.check_win_conditions
      { team1_targets := [1, 1, 1, 1, 1], team2_targets := [1, 1, 1, 1, 1],
        team1_collected := [1], team2_collected := [],
        current_team := 1, turn_count := 0, max_turns := 50,
        game_over := false, winner := none }).winner = some 1 ∧
    ¬ (([1, 1, 1, 1, 1] : List Int).count 1 ≤ ([1] : List Int).count 1) := by
  decide

/-- C1 (amended): in `GameState.check_win_conditions`, on a live game (no
prior winner, max turns not reached, team 2 short of its targets), team 1 is
declared the winner exactly when, for every item kind in its 5-element target
list, the pooled collected count is at least the required count; in
`Game.check_win_conditions` the analogous win triggers exactly when every
target kind merely appears at least once in the collected list. -/
theorem check_win_conditions_count_iff (s : GameState) (g : GState)
    (hlen : s.team1_targets.length = 5)
    (h2 : matchesCount s.team2_targets s.team2_collected < 5)
    (hw : s.winner = none) (hgo : s.game_over = false)
    (ht : s.turn_count < s.max_turns)
    (hglen : g.team1_targets.length = 5)
    (hg2 : presenceCount g.team2_targets g.team2_collected < 5)
    (hgw : g.winner = none) (hggo : g.game_over = false) :
    ((s.check_win_conditions.game_over = true ∧
        s.check_win_conditions.winner = some 1) ↔
      ∀ k ∈ s.team1_targets,
        s.team1_targets.count k ≤ s.team1_collected.count k) ∧
    (((Game.check_win_conditions g).game_over = true ∧
        (Game.check_win_conditions g).winner = some 1) ↔
      ∀ k ∈ g.team1_targets, 0 < g.team1_collected.count k) := by
  have key1 : 5 ≤ matchesCount s.team1_targets s.team1_collected ↔
      ∀ k ∈ s.team1_targets,
        s.team1_targets.count k ≤ s.team1_collected.count k := by
    rw [matchesCount, ← hlen]
    simpa using length_le_countP_iff s.team1_targets
      (fun item => decide (s.team1_targets.count item ≤ s.team1_collected.count item))
  have key2 : 5 ≤ presenceCount g.team1_targets g.team1_collected ↔
      ∀ k ∈ g.team1_targets, 0 < g.team1_collected.count k := by
    rw [presenceCount, ← hglen]
    simpa using length_le_countP_iff g.team1_targets
      (fun item => decide (0 < g.team1_collected.count item))
  constructor
  · rw [← key1]
    by_cases hc1 : 5 ≤ matchesCount s.team1_targets s.team1_collected <;>
      simp [GameState.check_win_conditions, hc1,
        show ¬ 5 ≤ matchesCount s.team2_targets s.team2_collected by omega,
        show ¬ s.max_turns ≤ s.turn_count by omega, hw, hgo]
  · rw [← key2]
    by_cases hc1 : 5 ≤ presenceCount g.team1_targets g.team1_collected <;>
      simp [Game.check_win_conditions, hc1,
        show ¬ 5 ≤ presenceCount g.team2_targets g.team2_collected by omega,
        hgw, hggo]

/-- C1 witness: with targets `[1, 1, 2, 3, 3]` (sushi twice, donut once,
banana twice) and pooled collected `[1, 1, 1]` (three sushi, no donut), the
two win-check equivalences hold at a concrete live state; in particular the
right-hand sides are false there, so neither check triggers a win. -/
theorem check_win_conditions_count_iff_witness :
    let s0 : GameState :=
      { grid := [], TEAM1_1_SPAWN_POS := (5, 5), TEAM1_2_SPAWN_POS := (0, 3),
        TEAM2_1_SPAWN_POS := (4, 5), TEAM2_2_SPAWN_POS := (7, 7),
        team1_minion_1_pos := (5, 5), team1_minion_2_pos := (0, 3),
        team2_minion_1_pos := (4, 5), team2_minion_2_pos := (7, 7),
        team1_targets := [1, 1, 2, 3, 3], team2_targets := [2, 2, 2, 2, 2],
        team1_collected := [1, 1, 1], team2_collected := [],
        current_team := 1, turn_count := 0, max_turns := 50,
        game_over := false, winner := none }
    let g0 : GState :=
      { team1_targets := [1, 1, 2, 3, 3], team2_targets := [2, 2, 2, 2, 2],
        team1_collected := [1, 1, 1], team2_collected := [],
        current_team := 1, turn_count := 0, max_turns := 50,
        game_over := false, winner := none }
    ((s0.check_win_conditions.game_over = true ∧
        s0.check_win_conditions.winner = some 1) ↔
      ∀ k ∈ s0.team1_targets,
        s0.team1_targets.count k ≤ s0.team1_collected.count k) ∧
    (((Game.check_win_conditions g0).game_over = true ∧
        (Game.check_win_conditions g0).winner = some 1) ↔
      ∀ k ∈ g0.team1_targets, 0 < g0.team1_collected.count k) :=
  check_win_conditions_count_iff _ _ (by decide) (by decide) (by decide)
    (by decide) (by decide) (by decide) (by decide) (by decide) (by decide)

/-- C8 counterexample: when both teams satisfy their win conditions in the
same `GameState.check_win_conditions` call, the team 2 check overwrites the
team 1 result, so the declared winner is team 2, not team 1 as claimed. -/
theorem check_win_both_teams_counterexample :
    let s0 : GameState :=
      { grid := [], TEAM1_1_SPAWN_POS := (5, 5), TEAM1_2_SPAWN_POS := (0, 3),
        TEAM2_1_SPAWN_POS := (4, 5), TEAM2_2_SPAWN_POS := (7, 7),
        team1_minion_1_pos := (5, 5), team1_minion_2_pos := (0, 3),
        team2_minion_1_pos := (4, 5), team2_minion_2_pos := (7, 7),
        team1_targets := [1, 1, 1, 1, 1], team2_targets := [1, 1, 1, 1, 1],
        team1_collected := [1, 1, 1, 1, 1], team2_collected := [1, 1, 1, 1, 1],
        current_team := 1, turn_count := 0, max_turns := 50,
        game_over := false, winner := none }
    5 ≤ matchesCount s0.team1_targets s0.team1_collected ∧
    s0.check_win_conditions.winner = some 2 ∧
    s0.check_win_conditions.winner ≠ some 1 := by
  decide

/-- C8 (amended): on a live state (no prior winner, max turns not reached),
if team 1 satisfies its win condition then the game ends immediately
(`game_over` set), and the declared winner is team 1 — unless team 2 also
satisfies its condition in the same check, in which case the later team 2
check overwrites the winner to team 2. -/
theorem check_win_conditions_team1_first (s : GameState)
    (hw : s.winner = none) (ht : s.turn_count < s.max_turns)
    (h1 : 5 ≤ matchesCount s.team1_targets s.team1_collected) :
    s.check_win_conditions.game_over = true ∧
    s.check_win_conditions.winner =
      some (if 5 ≤ matchesCount s.team2_targets s.team2_collected then 2 else 1) := by
  by_cases hc2 : 5 ≤ matchesCount s.team2_targets s.team2_collected <;>
    simp [GameState.check_win_conditions, h1, hc2,
      show ¬ s.max_turns ≤ s.turn_count by omega, hw]

/-- C8 witness: a concrete live state where only team 1 meets its targets;
the check ends the game with winner team 1. -/
theorem check_win_conditions_team1_first_witness :
    let s0 : GameState :=
      { grid := [], TEAM1_1_SPAWN_POS := (5, 5), TEAM1_2_SPAWN_POS := (0, 3),
        TEAM2_1_SPAWN_POS := (4, 5), TEAM2_2_SPAWN_POS := (7, 7),
        team1_minion_1_pos := (5, 5), team1_minion_2_pos := (0, 3),
        team2_minion_1_pos := (4, 5), team2_minion_2_pos := (7, 7),
        team1_targets := [1, 2, 3, 1, 2], team2_targets := [3, 3, 3, 3, 3],
        team1_collected := [1, 1, 2, 2, 3], team2_collected := [],
        current_team := 1, turn_count := 3, max_turns := 50,
        game_over := false, winner := none }
    s0.check_win_conditions.game_over = true ∧
    s0.check_win_conditions.winner =
      some (if 5 ≤ matchesCount s0.team2_targets s0.team2_collected then 2 else 1) :=
  check_win_conditions_team1_first _ (by decide) (by decide) (by decide)

/-- C6: evaluation of the `Game.take_turn` bookkeeping at the failing input.
With targets `[1, 2, 3, 1, 2]` all present in `collected = [1, 2, 3]`, the
win check inside `take_turn` declares team 1 the winner; but because the
turn counter then reaches `max_turns` and the draw assignment in
`src/src/game.py` lines 519–521 has no `winner is None` guard, the winner is
overwritten with the draw value 0 — the same-round team win is not kept,
unlike `GameState.check_win_conditions`, which guards the draw. -/
theorem take_turn_end_draw_overwrites_win :
    let g1 : GState :=
      { team1_targets := [1, 2, 3, 1, 2], team2_targets := [1, 1, 1, 1, 1],
        team1_collected := [1, 2, 3], team2_collected := [],
        current_team := 1, turn_count := 49, max_turns := 50,
        game_over := false, winner := none }
    (Game.check_win_conditions g1).winner = some 1 ∧
    (Game.take_turn_end g1).game_over = true ∧
    (Game.take_turn_end g1).winner = some 0 := by
  decide

/-- `Game.check_win_conditions` writes only `game_over` and `winner`. -/
lemma game_check_win_frame (s : GState) :
    (Game.check_win_conditions s).team1_targets = s.team1_targets ∧
    (Game.check_win_conditions s).team2_targets = s.team2_targets ∧
    (Game.check_win_conditions s).team1_collected = s.team1_collected ∧
    (Game.check_win_conditions s).team2_collected = s.team2_collected ∧
    (Game.check_win_conditions s).current_team = s.current_team ∧
    (Game.check_win_conditions s).turn_count = s.turn_count ∧
    (Game.check_win_conditions s).max_turns = s.max_turns := by
  unfold Game.check_win_conditions
  split_ifs <;> simp

/-- C9 counterexample: on the final turn of `Game.take_turn` with no team
winning, the bookkeeping tail writes `dialogue_timer` (a field beyond the
turn counter, the current-team indicator and the game-over/winner flags),
and it sets `winner` to the draw value 0 through the unguarded max-turns
assignment even though the win check it performs leaves `winner` untouched
(`None`) — so the winner change is not "via the win check". -/
theorem take_turn_writes_beyond_counterexample :
    let g : GState :=
      { team1_targets := [1, 1, 1, 1, 1], team2_targets := [1, 1, 1, 1, 1],
        team1_collected := [], team2_collected := [],
        current_team := 1, turn_count := 49, max_turns := 50,
        game_over := false, winner := none }
    (Game.take_turn_tail { core := g, dialogue_timer := 0 } 123).dialogue_timer
        = 123 ∧
    (123 : Nat) ≠ 0 ∧
    (Game.check_win_conditions g).winner = none ∧
    (Game.take_turn_tail { core := g, dialogue_timer := 0 } 123).core.winner
        = some 0 := by
  decide

/-- C9 (amended): `GameState.next_turn` increments the turn counter by
exactly one and leaves the grid, all four minion positions, all four spawn
points, the target lists and collected lists of both teams and `max_turns`
unchanged (the only other fields it can touch are `current_team` and,
through the win check it performs, `game_over` and `winner`).  The
end-of-move tail of `Game.take_turn` likewise increments the turn counter by
exactly one and leaves both target lists, both collected lists and
`max_turns` unchanged, but it additionally writes `dialogue_timer` (to the
current clock tick), and at max turns it sets `game_over`/`winner` directly
through the unguarded draw assignment, outside its win check. -/
theorem turn_advance_frame (s : GameState) (t : GStateT) (ticks : Nat) :
    ((s.next_turn).turn_count = s.turn_count + 1 ∧
      (s.next_turn).grid = s.grid ∧
      (s.next_turn).team1_minion_1_pos = s.team1_minion_1_pos ∧
      (s.next_turn).team1_minion_2_pos = s.team1_minion_2_pos ∧
      (s.next_turn).team2_minion_1_pos = s.team2_minion_1_pos ∧
      (s.next_turn).team2_minion_2_pos = s.team2_minion_2_pos ∧
      (s.next_turn).TEAM1_1_SPAWN_POS = s.TEAM1_1_SPAWN_POS ∧
      (s.next_turn).TEAM1_2_SPAWN_POS = s.TEAM1_2_SPAWN_POS ∧
      (s.next_turn).TEAM2_1_SPAWN_POS = s.TEAM2_1_SPAWN_POS ∧
      (s.next_turn).TEAM2_2_SPAWN_POS = s.TEAM2_2_SPAWN_POS ∧
      (s.next_turn).team1_targets = s.team1_targets ∧
      (s.next_turn).team2_targets = s.team2_targets ∧
      (s.next_turn).team1_collected = s.team1_collected ∧
      (s.next_turn).team2_collected = s.team2_collected ∧
      (s.next_turn).max_turns = s.max_turns) ∧
    ((Game.take_turn_tail t ticks).core.turn_count = t.core.turn_count + 1 ∧
      (Game.take_turn_tail t ticks).core.team1_targets = t.core.team1_targets ∧
      (Game.take_turn_tail t ticks).core.team2_targets = t.core.team2_targets ∧
      (Game.take_turn_tail t ticks).core.team1_collected =
        t.core.team1_collected ∧
      (Game.take_turn_tail t ticks).core.team2_collected =
        t.core.team2_collected ∧
      (Game.take_turn_tail t ticks).core.max_turns = t.core.max_turns ∧
      (Game.take_turn_tail t ticks).dialogue_timer = ticks) := by
  constructor
  · unfold GameState.next_turn GameState.check_win_conditions
    split_ifs <;> simp <;> split_ifs <;> simp
  · obtain ⟨h1, h2, h3, h4, h5, h6, h7⟩ := game_check_win_frame t.core
    unfold Game.take_turn_tail Game.take_turn_end
    split_ifs <;> simp [h1, h2, h3, h4, h6, h7] <;> split_ifs <;> simp

/-- Reading back the written index of `List.set`. -/
lemma getD_set_self {α : Type} (l : List α) (i : Nat) (v d : α)
    (h : i < l.length) : (l.set i v).getD i d = v := by
  simp [List.getD, List.getElem?_set_self, h]

/-- Writing a cell then reading it back, at in-range indices. -/
lemma gridCell_setCell_self (grid : List (List Int)) (y x v : Int)
    (hy : y.toNat < grid.length)
    (hx : x.toNat < (grid.getD y.toNat []).length) :
    gridCell (setCell grid y x v) y x = v := by
  unfold gridCell setCell
  rw [getD_set_self _ _ _ _ (by simpa using hy)]
  exact getD_set_self _ _ _ _ hx

/-- C5 counterexample: in `Game.check_item_collection` (`src/src/game.py`),
collecting the sushi at cell (0, 0) appends it to the collected list but
does not set the grid cell to empty — the cell still holds item code 1 —
refuting the claimed "appends …, sets that grid cell to empty, and returns
`(True, k)`" for that cited implementation. -/
theorem check_item_collection_no_clear_counterexample :
    (Game.check_item_collection [[1]] (0, 0) [] []).2 = [1] ∧
    gridCell (Game.check_item_collection [[1]] (0, 0) [] []).1 0 0 = SUSHI ∧
    SUSHI ≠ EMPTY := by
  decide

/-- C5 (amended): for every position in range of the grid,
`GameState.check_item_collection` appends exactly the held item kind to the
collected list, clears the cell to empty and returns `(True, item)` when the
cell holds an item code in {1, 2, 3}, and otherwise returns `(False, None)`
leaving grid and collected list unchanged; `Game.check_item_collection`
instead only appends the item, never touching the grid (the cell is only
overwritten later by `move_minion`). -/
theorem check_item_collection_spec (grid : List (List Int))
    (minion_pos : Int × Int) (collected_items : List Int)
    (target_items : List Int)
    (hy : minion_pos.1.toNat < grid.length)
    (hx : minion_pos.2.toNat < (grid.getD minion_pos.1.toNat []).length) :
    (∀ item : Int, gridCell grid minion_pos.1 minion_pos.2 = item →
      1 ≤ item ∧ item ≤ 3 →
      (GameState.check_item_collection grid minion_pos collected_items).2.2.1 = true ∧
      (GameState.check_item_collection grid minion_pos collected_items).2.2.2 = some item ∧
      (GameState.check_item_collection grid minion_pos collected_items).2.1 =
        collected_items ++ [item] ∧
      gridCell (GameState.check_item_collection grid minion_pos collected_items).1
        minion_pos.1 minion_pos.2 = EMPTY ∧
      (Game.check_item_collection grid minion_pos collected_items target_items).2 =
        collected_items ++ [item]) ∧
    (¬ (1 ≤ gridCell grid minion_pos.1 minion_pos.2 ∧
          gridCell grid minion_pos.1 minion_pos.2 ≤ 3) →
      GameState.check_item_collection grid minion_pos collected_items =
        (grid, collected_items, false, none)) ∧
    (Game.check_item_collection grid minion_pos collected_items target_items).1 =
      grid := by
  refine ⟨?_, ?_, ?_⟩
  · rintro item rfl hit
    have hcell := gridCell_setCell_self grid minion_pos.1 minion_pos.2 0 hy hx
    simp [GameState.check_item_collection, Game.check_item_collection,
      if_pos hit, EMPTY, hcell]
  · intro hno
    simp only [GameState.check_item_collection, if_neg hno]
  · by_cases h : 1 ≤ gridCell grid minion_pos.1 minion_pos.2 ∧
        gridCell grid minion_pos.1 minion_pos.2 ≤ 3 <;>
      simp [Game.check_item_collection, h]

/-- C5 witness: a 1 × 1 grid holding a sushi at (0, 0): the collection
appends the sushi, clears the cell and reports `(True, 1)`, while the
`game.py` variant appends but leaves the grid as is. -/
theorem check_item_collection_spec_witness :
    (∀ item : Int, gridCell [[1]] (0 : Int) (0 : Int) = item →
      1 ≤ item ∧ item ≤ 3 →
      (GameState.check_item_collection [[1]] (0, 0) []).2.2.1 = true ∧
      (GameState.check_item_collection [[1]] (0, 0) []).2.2.2 = some item ∧
      (GameState.check_item_collection [[1]] (0, 0) []).2.1 = [] ++ [item] ∧
      gridCell (GameState.check_item_collection [[1]] (0, 0) []).1 0 0 = EMPTY ∧
      (Game.check_item_collection [[1]] (0, 0) [] []).2 = [] ++ [item]) ∧
    (¬ (1 ≤ gridCell [[1]] (0 : Int) (0 : Int) ∧
          gridCell [[1]] (0 : Int) (0 : Int) ≤ 3) →
      GameState.check_item_collection [[1]] (0, 0) [] = ([[1]], [], false, none)) ∧
    (Game.check_item_collection [[1]] (0, 0) [] []).1 = [[1]] :=
  check_item_collection_spec [[1]] (0, 0) [] [] (by decide) (by decide)

/-- The Boolean loop test of `find_available_spawn_or_adjacent` holds exactly
when the offset is acceptable. -/
lemma findPred_iff (grid : List (List Int)) (occ : List (Int × Int))
    (base d : Int × Int) :
    findPredB grid occ base d = true ↔ goodAdj grid occ base d := by
  simp [findPredB, goodAdj, inBounds, and_assoc]
  intros
  constructor
  · intro h hmem
    exact h _ _ hmem rfl rfl
  · intro h a b hmem ha hb
    rw [ha, hb] at hmem
    exact h hmem

/-- Membership form of the claimed-this-turn test. -/
lemma anyBeq_iff (occ : List (Int × Int)) (p : Int × Int) :
    (occ.any (fun occ_pos => occ_pos == p)) = true ↔ p ∈ occ := by
  simp [List.any_eq_true]

/-- C3: for an in-bounds spawn position and any shuffle of the four neighbor
offsets, relocation returns the spawn itself when no other minion has claimed
it this turn; otherwise an acceptable neighbor (in bounds, empty, unclaimed)
when one exists; otherwise the spawn position even though occupied — and the
result is always in bounds. -/
theorem find_available_spawn_or_adjacent_spec (base_spawn_pos : Int × Int)
    (grid : List (List Int)) (occ adj_diffs : List (Int × Int))
    (hb : inBounds GRID_HEIGHT GRID_WIDTH base_spawn_pos)
    (hperm : adj_diffs.Perm [(0, 1), (0, -1), (1, 0), (-1, 0)]) :
    (base_spawn_pos ∉ occ →
      GameState.find_available_spawn_or_adjacent base_spawn_pos grid occ
        adj_diffs = base_spawn_pos) ∧
    (base_spawn_pos ∈ occ →
      (∃ d ∈ ([(0, 1), (0, -1), (1, 0), (-1, 0)] : List (Int × Int)),
        goodAdj grid occ base_spawn_pos d) →
      ∃ d ∈ ([(0, 1), (0, -1), (1, 0), (-1, 0)] : List (Int × Int)),
        goodAdj grid occ base_spawn_pos d ∧
        GameState.find_available_spawn_or_adjacent base_spawn_pos grid occ
          adj_diffs = (base_spawn_pos.1 + d.1, base_spawn_pos.2 + d.2)) ∧
    (base_spawn_pos ∈ occ →
      (∀ d ∈ ([(0, 1), (0, -1), (1, 0), (-1, 0)] : List (Int × Int)),
        ¬ goodAdj grid occ base_spawn_pos d) →
      GameState.find_available_spawn_or_adjacent base_spawn_pos grid occ
        adj_diffs = base_spawn_pos) ∧
    inBounds GRID_HEIGHT GRID_WIDTH
      (GameState.find_available_spawn_or_adjacent base_spawn_pos grid occ
        adj_diffs) := by
  by_cases hocc : base_spawn_pos ∈ occ
  · have hany : (occ.any (fun occ_pos => occ_pos == base_spawn_pos)) = true :=
      (anyBeq_iff occ base_spawn_pos).mpr hocc
    rcases hfind : adj_diffs.find? (findPredB grid occ base_spawn_pos) with _ | d
    · have hres : GameState.find_available_spawn_or_adjacent base_spawn_pos grid
          occ adj_diffs = base_spawn_pos := by
        unfold GameState.find_available_spawn_or_adjacent
        rw [if_pos hany, hfind]
      have hall : ∀ d ∈ ([(0, 1), (0, -1), (1, 0), (-1, 0)] : List (Int × Int)),
          ¬ goodAdj grid occ base_spawn_pos d := by
        intro d hdmem
        rw [← findPred_iff]
        simpa using List.find?_eq_none.mp hfind d (hperm.mem_iff.mpr hdmem)
      refine ⟨fun hnot => absurd hocc hnot, ?_, fun _ _ => hres,
        by rw [hres]; exact hb⟩
      intro _ hex
      obtain ⟨d, hdmem, hgood⟩ := hex
      exact absurd hgood (hall d hdmem)
    · have hres : GameState.find_available_spawn_or_adjacent base_spawn_pos grid
          occ adj_diffs = (base_spawn_pos.1 + d.1, base_spawn_pos.2 + d.2) := by
        unfold GameState.find_available_spawn_or_adjacent
        rw [if_pos hany, hfind]
      have hgood : goodAdj grid occ base_spawn_pos d :=
        (findPred_iff grid occ base_spawn_pos d).mp (List.find?_some hfind)
      have hdmem : d ∈ ([(0, 1), (0, -1), (1, 0), (-1, 0)] : List (Int × Int)) :=
        hperm.mem_iff.mp (List.mem_of_find?_eq_some hfind)
      refine ⟨fun hnot => absurd hocc hnot, ?_, ?_, by rw [hres]; exact hgood.1⟩
      · exact fun _ _ => ⟨d, hdmem, hgood, hres⟩
      · intro _ hall
        exact absurd hgood (hall d hdmem)
  · have hany : (occ.any (fun occ_pos => occ_pos == base_spawn_pos)) = false := by
      rcases h : occ.any (fun occ_pos => occ_pos == base_spawn_pos) with _ | _
      · rfl
      · exact absurd ((anyBeq_iff occ base_spawn_pos).mp h) hocc
    have hres : GameState.find_available_spawn_or_adjacent base_spawn_pos grid
        occ adj_diffs = base_spawn_pos := by
      unfold GameState.find_available_spawn_or_adjacent
      rw [if_neg (by simp [hany])]
    exact ⟨fun _ => hres, fun h => absurd h hocc, fun h => absurd h hocc,
      by rw [hres]; exact hb⟩

/-- C3 witness: spawn (0, 0) on an all-empty 8 × 10 grid is claimed by
another minion this turn, and the relocation picks an acceptable adjacent
cell; with nobody claiming it, it returns the spawn itself. -/
theorem find_available_spawn_or_adjacent_spec_witness :
    ((0, 0) ∉ ([((0 : Int), (1 : Int))] : List (Int × Int)) →
      GameState.find_available_spawn_or_adjacent (0, 0)
        (List.replicate 8 (List.replicate 10 0)) [((0 : Int), (1 : Int))]
        [(0, 1), (0, -1), (1, 0), (-1, 0)] = (0, 0)) ∧
    ((0, 0) ∈ ([((0 : Int), (1 : Int))] : List (Int × Int)) →
      (∃ d ∈ ([(0, 1), (0, -1), (1, 0), (-1, 0)] : List (Int × Int)),
        goodAdj (List.replicate 8 (List.replicate 10 0))
          [((0 : Int), (1 : Int))] (0, 0) d) →
      ∃ d ∈ ([(0, 1), (0, -1), (1, 0), (-1, 0)] : List (Int × Int)),
        goodAdj (List.replicate 8 (List.replicate 10 0))
          [((0 : Int), (1 : Int))] (0, 0) d ∧
        GameState.find_available_spawn_or_adjacent (0, 0)
          (List.replicate 8 (List.replicate 10 0)) [((0 : Int), (1 : Int))]
          [(0, 1), (0, -1), (1, 0), (-1, 0)] =
          ((0 : Int) + d.1, (0 : Int) + d.2)) ∧
    (((0 : Int), (0 : Int)) ∈ ([((0 : Int), (1 : Int))] : List (Int × Int)) →
      (∀ d ∈ ([(0, 1), (0, -1), (1, 0), (-1, 0)] : List (Int × Int)),
        ¬ goodAdj (List.replicate 8 (List.replicate 10 0))
          [((0 : Int), (1 : Int))] (0, 0) d) →
      GameState.find_available_spawn_or_adjacent (0, 0)
        (List.replicate 8 (List.replicate 10 0)) [((0 : Int), (1 : Int))]
        [(0, 1), (0, -1), (1, 0), (-1, 0)] = (0, 0)) ∧
    inBounds GRID_HEIGHT GRID_WIDTH
      (GameState.find_available_spawn_or_adjacent (0, 0)
        (List.replicate 8 (List.replicate 10 0)) [((0 : Int), (1 : Int))]
        [(0, 1), (0, -1), (1, 0), (-1, 0)]) :=
  find_available_spawn_or_adjacent_spec (0, 0)
    (List.replicate 8 (List.replicate 10 0)) [((0 : Int), (1 : Int))]
    [(0, 1), (0, -1), (1, 0), (-1, 0)] (by decide) (by decide)

/-- C4 counterexample: an erroring request in
`AIController.get_movement_direction` substitutes a random direction, not the
deterministic `"stay"` the claim asserts — with random draw 0, the fallback
is `"up"` (and `"stay"` is not even in the fallback choice list). -/
theorem fallback_not_stay_counterexample :
    AIController.get_movement_direction ChatOutcome.requestError 0 = "up" ∧
    ("up" : String) ≠ "stay" ∧
    "stay" ∉ (["up", "down", "left", "right"] : List String) := by
  constructor
  · rfl
  · decide

/-- C4 (amended): whenever the provider call errors or yields no usable
result, both decision entry points return normally with a substituted
fallback decision; in `AIService.get_minion_action` that fallback move is
always the deterministic `"stay"`, while in
`AIController.get_movement_direction` it is instead a random direction from
{up, down, left, right} — never `"stay"`. -/
theorem fallback_decisions (o : ProviderOutcome) (c : ChatOutcome) (pick : Nat)
    (ho : o.failed = true) (hc : c.failed = true) :
    (AIService.get_minion_action o).move = "stay" ∧
    AIController.get_movement_direction c pick ∈
      (["up", "down", "left", "right"] : List String) ∧
    AIController.get_movement_direction c pick ≠ "stay" := by
  have h4 : pick % 4 = 0 ∨ pick % 4 = 1 ∨ pick % 4 = 2 ∨ pick % 4 = 3 := by
    omega
  cases o <;> cases c <;>
    simp_all only [ProviderOutcome.failed, ChatOutcome.failed,
      Bool.false_eq_true] <;>
    rcases h4 with h | h | h | h <;>
    simp [AIService.get_minion_action, AIController.get_movement_direction, h]

/-- C4 witness: a raised exception in both entry points — `get_minion_action`
falls back to `"stay"`, `get_movement_direction` (random draw 0) to a
non-stay direction. -/
theorem fallback_decisions_witness :
    (AIService.get_minion_action ProviderOutcome.apiError).move = "stay" ∧
    AIController.get_movement_direction ChatOutcome.requestError 0 ∈
      (["up", "down", "left", "right"] : List String) ∧
    AIController.get_movement_direction ChatOutcome.requestError 0 ≠ "stay" :=
  fallback_decisions ProviderOutcome.apiError ChatOutcome.requestError 0
    (by decide) (by decide)

lemma insertByPowerDesc_perm (a : Agent) (l : List Agent) :
    (insertByPowerDesc a l).Perm (a :: l) := by
  induction l with
  | nil => simp [insertByPowerDesc]
  | cons b rest ih =>
      by_cases h : b.power ≤ a.power
      · simp [insertByPowerDesc, h]
      · simp only [insertByPowerDesc, if_neg h]
        exact (ih.cons b).trans (List.Perm.swap a b rest)

lemma sortByPowerDesc_perm (l : List Agent) : (sortByPowerDesc l).Perm l := by
  induction l with
  | nil => simp [sortByPowerDesc]
  | cons a rest ih =>
      exact (insertByPowerDesc_perm a (sortByPowerDesc rest)).trans (ih.cons a)

/-- If `a` strictly out-powers every other element, the descending stable
sort puts (a copy of) `a` first. -/
lemma sortByPowerDesc_head (l : List Agent) (a : Agent) (ha : a ∈ l)
    (hmax : ∀ b ∈ l, b ≠ a → b.power < a.power) :
    ∃ rest, sortByPowerDesc l = a :: rest := by
  induction l with
  | nil => cases ha
  | cons c cs ih =>
      by_cases hca : c = a
      · subst hca
        rcases hs : sortByPowerDesc cs with _ | ⟨b, bs⟩
        · exact ⟨[], by simp [sortByPowerDesc, hs, insertByPowerDesc]⟩
        · have hb : b ∈ cs := (sortByPowerDesc_perm cs).mem_iff.mp (by simp [hs])
          have hble : b.power ≤ c.power := by
            by_cases hbc : b = c
            · rw [hbc]
            · exact le_of_lt (hmax b (List.mem_cons_of_mem c hb) hbc)
          exact ⟨b :: bs, by simp [sortByPowerDesc, hs, insertByPowerDesc, hble]⟩
      · have hac : a ∈ cs := by
          rcases List.mem_cons.mp ha with h | h
          · exact absurd h.symm hca
          · exact h
        obtain ⟨rest, hrest⟩ := ih hac
          (fun b hb hne => hmax b (List.mem_cons_of_mem c hb) hne)
        have hclt : c.power < a.power := hmax c (List.mem_cons_self c cs) hca
        refine ⟨insertByPowerDesc c rest, ?_⟩
        simp [sortByPowerDesc, hrest, insertByPowerDesc, not_le.mpr hclt,
          le_of_lt hclt]

/-- C7: for a cell claimed by two or more agents, whatever the random
shuffle, the claimant with strictly highest power keeps the cell and every
other claimant is bumped; in particular with powers `p1 > p2` the winner is
always the power-`p1` agent.  (Modelled from the spec; see
`resolve_collision`.) -/
theorem arbitration_highest_power_wins (claimants shuffled : List Agent)
    (a : Agent) (hperm : shuffled.Perm claimants)
    (hlen : 2 ≤ claimants.length) (ha : a ∈ claimants)
    (hmax : ∀ b ∈ claimants, b ≠ a → b.power < a.power) :
    (resolve_collision shuffled).1 = some a ∧
    ∀ b ∈ claimants, b ≠ a → b ∈ (resolve_collision shuffled).2 := by
  obtain ⟨rest, hrest⟩ := sortByPowerDesc_head shuffled a
    (hperm.mem_iff.mpr ha)
    (fun b hb hne => hmax b (hperm.mem_iff.mp hb) hne)
  have hsortperm : (sortByPowerDesc shuffled).Perm claimants :=
    (sortByPowerDesc_perm shuffled).trans hperm
  constructor
  · simp [resolve_collision, hrest]
  · intro b hb hne
    have hbsort : b ∈ sortByPowerDesc shuffled := hsortperm.mem_iff.mpr hb
    rw [hrest] at hbsort
    rcases List.mem_cons.mp hbsort with h | h
    · exact absurd h hne
    · simpa [resolve_collision, hrest] using h

/-- C7 witness: two claimants with powers 5 > 1, shuffled into the weaker
agent first: the stronger agent still wins and the weaker one is bumped. -/
theorem arbitration_highest_power_wins_witness :
    (resolve_collision [⟨2, 1⟩, ⟨1, 5⟩]).1 = some ⟨1, 5⟩ ∧
    ∀ b ∈ ([⟨1, 5⟩, ⟨2, 1⟩] : List Agent), b ≠ ⟨1, 5⟩ →
      b ∈ (resolve_collision [⟨2, 1⟩, ⟨1, 5⟩]).2 :=
  arbitration_highest_power_wins [⟨1, 5⟩, ⟨2, 1⟩] [⟨2, 1⟩, ⟨1, 5⟩] ⟨1, 5⟩
    (by decide) (by decide) (by decide) (by decide)

lemma hread_halloc (σ : Store) (v : List Int) (a : Nat) (h : a < σ.length) :
    hread (σ ++ [v]) a = hread σ a := by
  simp [hread, List.getD, List.getElem?_append, h]

lemma hread_hwrite_ne (σ : Store) (b : Nat) (v : List Int) (a : Nat)
    (h : a ≠ b) : hread (hwrite σ b v) a = hread σ a := by
  simp [hread, hwrite, List.getD, List.getElem?_set_ne (Ne.symm h)]

/-- C10: the two position queries are observationally pure.
`calculate_new_position` never mutates the position list passed to it (the
returned address is a fresh copy, distinct from the argument), and
`find_available_spawn_or_adjacent` never mutates the grid, the spawn
position, or any of the claimed-position lists it is given — it returns a
fresh list as well. -/
theorem position_queries_pure (σ : Store) (position : Nat)
    (direction : String) (grid : List (List Int)) (base_spawn_pos : Nat)
    (occupied : List Nat) (adj_diffs : List (Int × Int))
    (hpos : position < σ.length) (hbase : base_spawn_pos < σ.length)
    (hocc : ∀ a ∈ occupied, a < σ.length) :
    (hread (GameState.calculate_new_position_heap σ position direction).1
        position = hread σ position ∧
      (GameState.calculate_new_position_heap σ position direction).2 ≠
        position) ∧
    ((GameState.find_available_spawn_or_adjacent_heap σ grid base_spawn_pos
        occupied adj_diffs).2.1 = grid ∧
      hread (GameState.find_available_spawn_or_adjacent_heap σ grid
        base_spawn_pos occupied adj_diffs).1 base_spawn_pos =
        hread σ base_spawn_pos ∧
      (∀ a ∈ occupied,
        hread (GameState.find_available_spawn_or_adjacent_heap σ grid
          base_spawn_pos occupied adj_diffs).1 a = hread σ a) ∧
      (GameState.find_available_spawn_or_adjacent_heap σ grid base_spawn_pos
        occupied adj_diffs).2.2 ≠ base_spawn_pos ∧
      (GameState.find_available_spawn_or_adjacent_heap σ grid base_spawn_pos
        occupied adj_diffs).2.2 ∉ occupied) := by
  have hshape : ∃ v, GameState.find_available_spawn_or_adjacent_heap σ grid
      base_spawn_pos occupied adj_diffs = (σ ++ [v], grid, σ.length) := by
    dsimp only [GameState.find_available_spawn_or_adjacent_heap, halloc]
    split_ifs
    · rcases adj_diffs.find? _ with _ | d
      · exact ⟨_, rfl⟩
      · exact ⟨_, rfl⟩
    · exact ⟨_, rfl⟩
  obtain ⟨v, hv⟩ := hshape
  refine ⟨⟨?_, ?_⟩, ?_, ?_, ?_, ?_, ?_⟩
  · dsimp only [GameState.calculate_new_position_heap, halloc]
    split_ifs <;>
      (try rw [hread_hwrite_ne _ _ _ _ (by omega)]) <;>
      exact hread_halloc σ _ position hpos
  · dsimp only [GameState.calculate_new_position_heap, halloc]
    omega
  · rw [hv]
  · rw [hv]
    exact hread_halloc σ v base_spawn_pos hbase
  · intro a ha
    rw [hv]
    exact hread_halloc σ v a (hocc a ha)
  · rw [hv]
    dsimp only
    omega
  · rw [hv]
    dsimp only
    intro hmem
    exact absurd (hocc _ hmem) (by omega)

/-- C10 witness: a two-cell store holding positions `[0, 0]` and `[1, 1]`:
moving the first down leaves the stored argument list intact and returns a
fresh address, and relocating from the second (claimed by the first) leaves
the store reads, the grid and the claimed list intact. -/
theorem position_queries_pure_witness :
    (hread (GameState.calculate_new_position_heap [[0, 0], [1, 1]] 0
        "down").1 0 = hread [[0, 0], [1, 1]] 0 ∧
      (GameState.calculate_new_position_heap [[0, 0], [1, 1]] 0 "down").2 ≠
        0) ∧
    ((GameState.find_available_spawn_or_adjacent_heap [[0, 0], [1, 1]] [[0]]
        1 [0] [(0, 1), (0, -1), (1, 0), (-1, 0)]).2.1 = [[0]] ∧
      hread (GameState.find_available_spawn_or_adjacent_heap [[0, 0], [1, 1]]
        [[0]] 1 [0] [(0, 1), (0, -1), (1, 0), (-1, 0)]).1 1 =
        hread [[0, 0], [1, 1]] 1 ∧
      (∀ a ∈ ([0] : List Nat),
        hread (GameState.find_available_spawn_or_adjacent_heap [[0, 0], [1, 1]]
          [[0]] 1 [0] [(0, 1), (0, -1), (1, 0), (-1, 0)]).1 a =
          hread [[0, 0], [1, 1]] a) ∧
      (GameState.find_available_spawn_or_adjacent_heap [[0, 0], [1, 1]] [[0]]
        1 [0] [(0, 1), (0, -1), (1, 0), (-1, 0)]).2.2 ≠ 1 ∧
      (GameState.find_available_spawn_or_adjacent_heap [[0, 0], [1, 1]] [[0]]
        1 [0] [(0, 1), (0, -1), (1, 0), (-1, 0)]).2.2 ∉ ([0] : List Nat)) :=
  position_queries_pure [[0, 0], [1, 1]] 0 "down" [[0]] 1 [0]
    [(0, 1), (0, -1), (1, 0), (-1, 0)] (by decide) (by decide) (by decide)

end Minion
